import Mathlib

/-!
Verification development for the Marketing_tool repository.

The file shallowly embeds the content-lifecycle data model and the
operations of the approval page (src/frontend/app/content/page.tsx) and of
the content API client (src/frontend/lib/content-api.ts), together with the
backend components that the frontend calls.  The backend implementation is
not part of the repository sources (its routes, state machine, validation
engine, retry manager and dispatcher are marked "to be implemented" in the
repository README); where a property depends on them they are modelled from
the design specification, and each such definition is marked
"Modelled from the spec".  ISO timestamp strings are modelled as natural
number epoch instants; JavaScript numbers are modelled as exact arithmetic.
-/

namespace MarketingTool

/-- Post status, from the string literal union type in src/frontend/lib/content-api.ts line 26. -/
inductive Status where
  | draft
  | approved
  | rejected
  | scheduled
  | posted
  | failed
deriving DecidableEq

/-- The Post entity, from the interface in src/frontend/lib/content-api.ts lines 18-33.
Timestamp strings are modelled as Nat epoch instants. -/
structure Post where
  id : String
  strategy_id : String
  platform : String
  content_text : String
  content_media_url : Option String
  tags : List String
  content_pillar : Option String
  status : Status
  suggested_time : Option Nat
  scheduled_time : Option Nat
  posted_at : Option Nat
  platform_post_id : Option String
  created_at : Nat
  updated_at : Nat
deriving DecidableEq

/-- Result of a posting call, from the interface in src/frontend/lib/content-api.ts lines 42-50. -/
structure PostingResult where
  success : Bool
  post_id : String
  platform : Option String
  platform_post_id : Option String
  message : Option String
  error : Option String
  simulated : Option Bool
deriving DecidableEq

/-- Body of the update endpoint, from the interface in src/frontend/lib/content-api.ts lines 63-68. -/
structure UpdatePostRequest where
  content_text : Option String := none
  content_media_url : Option String := none
  tags : Option (List String) := none
  status : Option Status := none
deriving DecidableEq

/-- The HTTP calls the approval page can issue through the content API client
(src/frontend/lib/content-api.ts). -/
inductive ApiCall where
  | getPosts
  | getPost (postId : String)
  | approvePost (postId : String)
  | rejectPost (postId : String)
  | updatePost (postId : String) (updates : UpdatePostRequest)
  | schedulePostToSocial (postId : String) (scheduledTime : Nat)
  | cancelScheduledPost (postId : String)
  | postNow (postId : String)
  | bulkApproveCall (postIds : List String)
  | bulkPostCall (postIds : List String)
deriving DecidableEq

/-- Kind of the transient posting banner, from the postingMessage state of
src/frontend/app/content/page.tsx lines 1020-1023. -/
inductive MsgType where
  | success
  | error
deriving DecidableEq

/-- The React state of the ApprovalPage component, one field per useState hook of
src/frontend/app/content/page.tsx lines 1007-1028 and 1067.  The value "all" of the
status filter is modelled as none. -/
structure PageState where
  posts : List Post
  selectedStatus : Option Status
  autoApproval : Bool
  loading : Bool
  error : Option String
  schedulingPost : Option Post
  scheduleDate : String
  scheduleTime : String
  postingId : Option String
  postingMessage : Option (MsgType × String)
  mediaUrlPost : Option Post
  mediaUrl : String
  generatingImage : Bool
  isScheduling : Bool
deriving DecidableEq

/-- setPosts(prev.map(p => p.id === postId ? updated : p)), the update pattern used by
every handler of src/frontend/app/content/page.tsx. -/
def replaceById (posts : List Post) (postId : String) (updated : Post) : List Post :=
  posts.map fun p => if p.id = postId then updated else p

/-- JavaScript toLowerCase as used on the ASCII platform names: lower-cases every
character. -/
def lowerAscii (s : String) : String :=
  String.mk (s.data.map Char.toLower)

/-- JavaScript falsiness of a nullable string: null and the empty string are falsy. -/
def strFalsy : Option String → Bool
  | none => true
  | some s => s == ""

/-- posts.find(p => p.id === postParam.id) || postParam, the lookup at the start of
handlePostNow, src/frontend/app/content/page.tsx line 1173. -/
def latestPost (s : PageState) (postParam : Post) : Post :=
  ((s.posts.find? fun p => p.id == postParam.id).getD postParam)

/-- Outcomes of the network calls made during one handlePostNow run: the post-now
endpoint call and the follow-up getPost refresh.  An error value is a thrown
axios rejection. -/
structure PostNowEnv where
  postNowResult : Except String PostingResult
  getResult : Except String Post

/-- Success banner text of handlePostNow, src/frontend/app/content/page.tsx lines 1193-1198. -/
def postNowSuccessMessage (result : PostingResult) (post : Post) : String :=
  if result.simulated = some true then
    "Post simulated (no API key configured). " ++ result.message.getD ""
  else
    "Successfully posted to " ++ post.platform ++ "!"

/-- handlePostNow, src/frontend/app/content/page.tsx lines 1171-1216.  Looks up the
latest version of the post; if the platform lower-cases to instagram and the media url
is falsy it only opens the add-media dialog (setMediaUrlPost) and returns without any
API call; otherwise it calls the post-now endpoint, refreshes the post on success and
sets a banner.  The delayed auto-hide of the banner (setTimeout) is not modelled. -/
def handlePostNow (s : PageState) (postParam : Post) (env : PostNowEnv) :
    PageState × List ApiCall :=
  let post := latestPost s postParam
  if lowerAscii post.platform == "instagram" && strFalsy post.content_media_url then
    ({ s with mediaUrlPost := some post }, [])
  else
    let s1 := { s with postingId := some post.id, postingMessage := none }
    match env.postNowResult with
    | .ok result =>
      if result.success then
        match env.getResult with
        | .ok updated =>
            ({ s1 with
                posts := replaceById s1.posts post.id updated,
                postingMessage := some (MsgType.success, postNowSuccessMessage result post),
                postingId := none },
             [ApiCall.postNow post.id, ApiCall.getPost post.id])
        | .error e =>
            ({ s1 with postingMessage := some (MsgType.error, e), postingId := none },
             [ApiCall.postNow post.id, ApiCall.getPost post.id])
      else
        ({ s1 with
            postingMessage := some (MsgType.error, result.error.getD "Failed to post"),
            postingId := none },
         [ApiCall.postNow post.id])
    | .error e =>
        ({ s1 with postingMessage := some (MsgType.error, e), postingId := none },
         [ApiCall.postNow post.id])

/-- Outcomes of the network calls made during one handleCancelSchedule run: the
cancel-schedule endpoint call, the follow-up getPost refresh, and the fallback
updatePost call of the catch block. -/
structure CancelEnv where
  cancelResult : Except String Unit
  getResult : Except String Post
  fallbackResult : Except String Post

/-- handleCancelSchedule, src/frontend/app/content/page.tsx lines 1218-1234.  On
success it refreshes the post.  Any thrown error (from the cancel endpoint or from the
refresh) reaches the catch block, which logs to the console and falls back to a plain
updatePost setting status to approved; a failure of the fallback is only logged.  No
state other than posts is ever touched: no error and no banner is set on any path. -/
def handleCancelSchedule (s : PageState) (postId : String) (env : CancelEnv) :
    PageState × List ApiCall :=
  match env.cancelResult with
  | .ok _ =>
    match env.getResult with
    | .ok updated =>
        ({ s with posts := replaceById s.posts postId updated },
         [ApiCall.cancelScheduledPost postId, ApiCall.getPost postId])
    | .error _ =>
        match env.fallbackResult with
        | .ok updated =>
            ({ s with posts := replaceById s.posts postId updated },
             [ApiCall.cancelScheduledPost postId, ApiCall.getPost postId,
              ApiCall.updatePost postId { status := some Status.approved }])
        | .error _ =>
            (s,
             [ApiCall.cancelScheduledPost postId, ApiCall.getPost postId,
              ApiCall.updatePost postId { status := some Status.approved }])
  | .error _ =>
    match env.fallbackResult with
    | .ok updated =>
        ({ s with posts := replaceById s.posts postId updated },
         [ApiCall.cancelScheduledPost postId,
          ApiCall.updatePost postId { status := some Status.approved }])
    | .error _ =>
        (s,
         [ApiCall.cancelScheduledPost postId,
          ApiCall.updatePost postId { status := some Status.approved }])

/-- handleApprove, src/frontend/app/content/page.tsx lines 1048-1055: calls the
approve endpoint and replaces the post on success; a thrown error is only logged. -/
def handleApprove (s : PageState) (postId : String) (env : Except String Post) :
    PageState × List ApiCall :=
  match env with
  | .ok updated =>
      ({ s with posts := replaceById s.posts postId updated }, [ApiCall.approvePost postId])
  | .error _ => (s, [ApiCall.approvePost postId])

/-- The Reconsider button shown for rejected posts, src/frontend/app/content/page.tsx
lines 1600-1610: its onClick is handleApprove(post.id). -/
def reconsiderClick (s : PageState) (post : Post) (env : Except String Post) :
    PageState × List ApiCall :=
  handleApprove s post.id env

/-- The Auto-Approval switch, src/frontend/app/content/page.tsx line 1394: its
onClick is setAutoApproval(!autoApproval) and nothing else. -/
def toggleAutoApproval (s : PageState) : PageState × List ApiCall :=
  ({ s with autoApproval := !s.autoApproval }, [])

/-- A sequence of n clicks on the Auto-Approval switch, accumulating the API calls
issued by the clicks. -/
def toggleSeq : Nat → PageState → PageState × List ApiCall
  | 0, s => (s, [])
  | n + 1, s =>
      let r := toggleAutoApproval s
      let rest := toggleSeq n r.1
      (rest.1, r.2 ++ rest.2)

/-- Number of posts whose status is approved, scheduled or posted, from the
approvalRate computation in src/frontend/app/analytics/page.tsx lines 67-73. -/
def approvedLikeCount (posts : List Post) : Nat :=
  (posts.filter fun p =>
    p.status == Status.approved || p.status == Status.scheduled || p.status == Status.posted).length

/-- stats.approvalRate, src/frontend/app/analytics/page.tsx lines 67-73:
posts.length > 0 ? Math.round(count / posts.length * 100) : 0.  Over exact
arithmetic, Math.round of the nonnegative rational 100 * k / n is the half-up
rounding, which equals the natural number (200 * k + n) / (2 * n). -/
def approvalRate (posts : List Post) : Nat :=
  if 0 < posts.length then
    (200 * approvedLikeCount posts + posts.length) / (2 * posts.length)
  else 0

/-- Modelled from the spec: the error taxonomy of section 7; the backend that raises
these errors is absent from src/. -/
inductive TransitionError where
  | InvalidTransition (current requested : Status)
  | InvalidSchedule
  | PreconditionFailed
  | StateConflict
  | GatewayTransientError (message : String)
  | GatewayPermanentError (message : String)
  | NotFound
deriving DecidableEq

/-- Modelled from the spec: the actions of the State Machine of section 4.1. -/
inductive Action where
  | approve
  | reject
  | reconsider
  | schedule (t : Nat)
  | cancelSchedule
  | publishSuccess (platformPostId : String)
  | publishFailure
  | resetFailed
deriving DecidableEq

/-- Modelled from the spec: a reported validation problem of the Validation Engine,
section 4.2. -/
structure ValidationIssue where
  field : String
  message : String
deriving DecidableEq

/-- Modelled from the spec: the Validation Engine of section 4.2, which is absent from
src/.  Pure rule table keyed by platform: instagram requires a non-null media url, and
every platform requires non-empty content text within the platform-specific maximum
length (the exact limits are configurable, hence the limits parameter). -/
def validate (limits : String → Nat) (p : Post) : List ValidationIssue :=
  (if lowerAscii p.platform == "instagram" && p.content_media_url == none then
    [{ field := "media_url", message := "instagram requires a media url" }]
   else []) ++
  (if p.content_text == "" then
    [{ field := "content_text", message := "content text must be non-empty" }]
   else []) ++
  (if limits p.platform < p.content_text.length then
    [{ field := "content_text", message := "content text exceeds the platform maximum length" }]
   else [])

/-- Modelled from the spec: the successful-publication arm of the State Machine,
section 4.1: transition into posted runs the Validation Engine first; a validation
failure yields PreconditionFailed and leaves the post unchanged. -/
def publishTransition (limits : String → Nat) (now : Nat) (p : Post) (pid : String) :
    Except TransitionError Post :=
  match validate limits p with
  | _ :: _ => .error .PreconditionFailed
  | [] =>
      .ok { p with
              status := Status.posted,
              posted_at := some now,
              platform_post_id := some pid,
              scheduled_time := none }

/-- Modelled from the spec: the State Machine transition table of section 4.1, which
is absent from src/.  Transition into scheduled rejects a scheduled_time that is not
strictly in the future with InvalidSchedule; all transitions outside the table fail
with InvalidTransition carrying the current and the requested status. -/
def transition (limits : String → Nat) (now : Nat) (p : Post) (a : Action) :
    Except TransitionError Post :=
  match a, p.status with
  | .approve, .draft => .ok { p with status := Status.approved }
  | .approve, s => .error (.InvalidTransition s Status.approved)
  | .reject, .draft => .ok { p with status := Status.rejected }
  | .reject, s => .error (.InvalidTransition s Status.rejected)
  | .reconsider, .rejected => .ok { p with status := Status.draft }
  | .reconsider, s => .error (.InvalidTransition s Status.draft)
  | .schedule t, .draft =>
      if now < t then .ok { p with status := Status.scheduled, scheduled_time := some t }
      else .error .InvalidSchedule
  | .schedule t, .approved =>
      if now < t then .ok { p with status := Status.scheduled, scheduled_time := some t }
      else .error .InvalidSchedule
  | .schedule _, s => .error (.InvalidTransition s Status.scheduled)
  | .cancelSchedule, .scheduled =>
      .ok { p with status := Status.approved, scheduled_time := none }
  | .cancelSchedule, s => .error (.InvalidTransition s Status.approved)
  | .publishSuccess pid, .approved => publishTransition limits now p pid
  | .publishSuccess pid, .scheduled => publishTransition limits now p pid
  | .publishSuccess _, s => .error (.InvalidTransition s Status.posted)
  | .publishFailure, .approved =>
      .ok { p with status := Status.failed, scheduled_time := none }
  | .publishFailure, .scheduled =>
      .ok { p with status := Status.failed, scheduled_time := none }
  | .publishFailure, s => .error (.InvalidTransition s Status.failed)
  | .resetFailed, .failed => .ok { p with status := Status.approved }
  | .resetFailed, s => .error (.InvalidTransition s Status.approved)

/-- Outcome of one Publishing Gateway call, from the PublishResult contract of
section 6 of the spec. -/
inductive GatewayOutcome where
  | success (platformPostId : String)
  | failure (transient : Bool) (message : String)
deriving DecidableEq

/-- Modelled from the spec: the synchronous dispatch path of the post-now operation,
sections 4.6 and 4.7, which is absent from src/.  The post must be in a pre-post
state, the Validation Engine runs before the gateway, and only then is the Publishing
Gateway invoked.  The Bool component records whether the gateway was invoked. -/
def postNowAttempt (limits : String → Nat) (now : Nat) (p : Post) (gw : GatewayOutcome) :
    Except TransitionError Post × Bool :=
  if p.status = Status.approved ∨ p.status = Status.scheduled then
    match validate limits p with
    | _ :: _ => (.error .PreconditionFailed, false)
    | [] =>
        match gw with
        | .success pid => (publishTransition limits now p pid, true)
        | .failure transient msg =>
            (.error (if transient then .GatewayTransientError msg
                     else .GatewayPermanentError msg), true)
  else (.error (.InvalidTransition p.status Status.posted), false)

/-- Modelled from the spec: the backend update endpoint (PUT /api/content/id), absent
from src/.  Design note section 9 describes it as a simple status update that bypasses
the transition and validation path, so it applies exactly the fields present in the
request body and touches nothing else (in particular it does not clear
scheduled_time). -/
def applyUpdate (now : Nat) (p : Post) (u : UpdatePostRequest) : Post :=
  { p with
      content_text := u.content_text.getD p.content_text,
      content_media_url :=
        match u.content_media_url with
        | some v => some v
        | none => p.content_media_url,
      tags := u.tags.getD p.tags,
      status := u.status.getD p.status,
      updated_at := now }

/-- Lookup of a stored post by id. -/
def findPost (posts : List Post) (postId : String) : Option Post :=
  posts.find? fun p => p.id == postId

/-- Modelled from the spec: the approve endpoint (POST /api/content/id/approve),
absent from src/; it routes through the State Machine and returns the updated post or
the transition error, leaving the store unchanged on error. -/
def approveEndpoint (limits : String → Nat) (now : Nat) (posts : List Post)
    (postId : String) : List Post × Except TransitionError Post :=
  match findPost posts postId with
  | none => (posts, .error .NotFound)
  | some p =>
      match transition limits now p Action.approve with
      | .ok updated => (replaceById posts postId updated, .ok updated)
      | .error e => (posts, .error e)

/-- Short description of a transition error, used for the error field of a
PostingResult. -/
def describeError : TransitionError → String
  | .InvalidTransition _ _ => "invalid transition"
  | .InvalidSchedule => "invalid schedule"
  | .PreconditionFailed => "precondition failed"
  | .StateConflict => "state conflict"
  | .GatewayTransientError m => m
  | .GatewayPermanentError m => m
  | .NotFound => "not found"

/-- Modelled from the spec: the post-now endpoint (POST /api/content/id/post-now),
absent from src/; its response type PostingResult is declared in
src/frontend/lib/content-api.ts lines 42-50. -/
def postNowEndpoint (limits : String → Nat) (now : Nat) (posts : List Post)
    (postId : String) (gw : String → GatewayOutcome) : List Post × PostingResult :=
  match findPost posts postId with
  | none =>
      (posts,
       { success := false, post_id := postId, platform := none, platform_post_id := none,
         message := none, error := some "not found", simulated := none })
  | some p =>
      match postNowAttempt limits now p (gw postId) with
      | (.ok updated, _) =>
          (replaceById posts postId updated,
           { success := true, post_id := postId, platform := some p.platform,
             platform_post_id := updated.platform_post_id, message := none,
             error := none, simulated := none })
      | (.error e, _) =>
          (posts,
           { success := false, post_id := postId, platform := some p.platform,
             platform_post_id := none, message := none, error := some (describeError e),
             simulated := none })

/-- Modelled from the spec: the bulk-approve endpoint, absent from src/.  Per section
4.7 it applies the single-item approve independently per id, one id at a time; its
response type is declared in src/frontend/lib/content-api.ts line 162 as Post[], so a
successful id contributes its updated Post and a failing id contributes nothing. -/
def bulkApprove (limits : String → Nat) (now : Nat) (posts : List Post) :
    List String → List Post × List Post
  | [] => (posts, [])
  | postId :: rest =>
      match approveEndpoint limits now posts postId with
      | (st, .ok updated) =>
          let r := bulkApprove limits now st rest
          (r.1, updated :: r.2)
      | (st, .error _) => bulkApprove limits now st rest

/-- Modelled from the spec: the bulk-post endpoint, absent from src/.  Per section 4.7
it applies the single-item post-now independently per id; its response type is
declared in src/frontend/lib/content-api.ts line 200 as PostingResult[], one entry per
id. -/
def bulkPost (limits : String → Nat) (now : Nat) (posts : List Post)
    (gw : String → GatewayOutcome) : List String → List Post × List PostingResult
  | [] => (posts, [])
  | postId :: rest =>
      let r := postNowEndpoint limits now posts postId gw
      let tailResult := bulkPost limits now r.1 gw rest
      (tailResult.1, r.2 :: tailResult.2)

/-- Modelled from the spec: the Retry Manager configuration of section 4.5 (maximum
attempt count and exponential backoff parameters), absent from src/. -/
structure RetryConfig where
  maxAttempts : Nat
  backoffBase : Nat
  backoffCap : Nat
deriving DecidableEq

/-- Modelled from the spec: the dispatcher-relevant fields of the persisted Post of
section 3.  The attempt_count and last_error fields belong to the backend data model
and do not appear in the frontend Post interface of src/frontend/lib/content-api.ts. -/
structure DispatchedPost where
  status : Status
  scheduled_time : Option Nat
  attempt_count : Nat
  last_error : Option String
  posted_at : Option Nat
  platform_post_id : Option String
deriving DecidableEq

/-- Modelled from the spec: the decision type of the Retry Manager, section 4.5. -/
inductive RetryDecision where
  | retryAfter (duration : Nat)
  | permanentFailure
deriving DecidableEq

/-- Modelled from the spec: exponential backoff, base times 2 to the attempt, capped
(section 4.5). -/
def backoff (cfg : RetryConfig) (attempt : Nat) : Nat :=
  min (cfg.backoffBase * 2 ^ attempt) cfg.backoffCap

/-- Modelled from the spec: the Retry Manager of section 4.5, absent from src/.  A
permanent failure is never retried; a transient failure is retried with backoff unless
the attempt count (including the attempt that just failed) has reached the configured
maximum, in which case it also yields a permanent failure. -/
def shouldRetry (cfg : RetryConfig) (attemptsMade : Nat) (transient : Bool) :
    RetryDecision :=
  if !transient then .permanentFailure
  else if cfg.maxAttempts ≤ attemptsMade then .permanentFailure
  else .retryAfter (backoff cfg attemptsMade)

/-- Modelled from the spec: the effect of one publish attempt on a claimed post,
sections 4.5 and 4.6, absent from src/.  Success moves the post to posted; a failure
increments attempt_count, records last_error, and either reschedules the post at
now plus the backoff duration or, on a permanent decision, moves it to failed. -/
def applyGateway (cfg : RetryConfig) (now : Nat) (p : DispatchedPost)
    (gw : GatewayOutcome) : DispatchedPost :=
  match gw with
  | .success pid =>
      { p with
          status := Status.posted, posted_at := some now, platform_post_id := some pid,
          scheduled_time := none, last_error := none }
  | .failure transient msg =>
      let attempts := p.attempt_count + 1
      match shouldRetry cfg attempts transient with
      | .permanentFailure =>
          { p with
              status := Status.failed, attempt_count := attempts,
              last_error := some msg, scheduled_time := none }
      | .retryAfter d =>
          { p with
              status := Status.scheduled, attempt_count := attempts,
              last_error := some msg, scheduled_time := some (now + d) }

/-- Modelled from the spec: one dispatcher tick acting on a single post whose gateway
call fails transiently, section 4.6.  The dispatcher only picks up posts whose status
is scheduled (findDue), and the tick fires once the scheduled time is due, so the
attempt takes place at the scheduled instant. -/
def transientTick (cfg : RetryConfig) (msg : String) (p : DispatchedPost) :
    DispatchedPost :=
  if p.status = Status.scheduled then
    applyGateway cfg (p.scheduled_time.getD 0) p (GatewayOutcome.failure true msg)
  else p

/-- k dispatcher ticks on a post whose gateway calls always fail transiently. -/
def runTransient (cfg : RetryConfig) (msg : String) : Nat → DispatchedPost → DispatchedPost
  | 0, p => p
  | k + 1, p => runTransient cfg msg k (transientTick cfg msg p)

/-! Concrete fixtures used by the closed theorems and the witnesses. -/

/-- A baseline post with the shape produced by the content generator. -/
def basePost : Post :=
  { id := "p0", strategy_id := "s1", platform := "linkedin",
    content_text := "hello world", content_media_url := none, tags := [],
    content_pillar := none, status := Status.draft, suggested_time := none,
    scheduled_time := none, posted_at := none, platform_post_id := none,
    created_at := 1, updated_at := 1 }

/-- A concrete instance of the configurable per-platform length limits. -/
def limits0 : String → Nat := fun _ => 280

/-- The initial React state of the approval page, before any post is loaded. -/
def emptyPage : PageState :=
  { posts := [], selectedStatus := none, autoApproval := false, loading := false,
    error := none, schedulingPost := none, scheduleDate := "", scheduleTime := "",
    postingId := none, postingMessage := none, mediaUrlPost := none, mediaUrl := "",
    generatingImage := false, isScheduling := false }

/-- A scheduled post, due at instant 1000. -/
def pSched : Post :=
  { basePost with id := "p1", status := Status.scheduled, scheduled_time := some 1000 }

/-- Page state holding the scheduled post. -/
def cancelPage : PageState := { emptyPage with posts := [pSched] }

/-- Network outcomes in which the cancel-schedule endpoint call fails (for example a
StateConflict raised by a racing dispatcher claim) and the fallback plain update
succeeds. -/
def cancelFailEnv : CancelEnv :=
  { cancelResult := .error "Request failed with status code 409",
    getResult := .error "unused",
    fallbackResult := .ok (applyUpdate 2 pSched { status := some Status.approved }) }

/-- A rejected post, as shown in the rejected-status action row. -/
def pRej : Post := { basePost with id := "p2", status := Status.rejected }

/-- Page state holding the rejected post. -/
def rejPage : PageState := { emptyPage with posts := [pRej] }

/-- Network outcome of the approve endpoint called on the rejected post. -/
def rejEnv : Except String Post := .error "invalid transition"

/-- An approved instagram post without any media url. -/
def pInsta : Post :=
  { basePost with
      id := "p3", platform := "instagram", status := Status.approved,
      content_media_url := none }

/-- Page state holding the instagram post. -/
def instaPage : PageState := { emptyPage with posts := [pInsta] }

/-- Unused network outcomes: the guard path issues no call at all. -/
def postNowEnv0 : PostNowEnv :=
  { postNowResult := .error "unused", getResult := .error "unused" }

/-- An approved post whose content text is empty. -/
def pEmptyText : Post :=
  { basePost with id := "p4", status := Status.approved, content_text := "" }

/-- A draft post and an already-posted post, the bulk-operation batch of the spec
partial-failure scenario. -/
def bulkPosts0 : List Post :=
  [{ basePost with id := "a1", status := Status.draft },
   { basePost with id := "b2", status := Status.posted }]

/-- A retry configuration with a maximum of three attempts. -/
def cfg0 : RetryConfig := { maxAttempts := 3, backoffBase := 60, backoffCap := 3600 }

/-- A freshly scheduled dispatcher post with no attempts yet. -/
def dp0 : DispatchedPost :=
  { status := Status.scheduled, scheduled_time := some 100, attempt_count := 0,
    last_error := none, posted_at := none, platform_post_id := none }

/-- Three posts of which two count as approved-like: the rate rounds 200 / 3 to 67. -/
def postsC10 : List Post :=
  [basePost, { basePost with status := Status.approved },
   { basePost with status := Status.posted }]

/-! Theorems settling the claims. -/

/-- C1: when the cancel-schedule endpoint call fails, handleCancelSchedule does not
surface the failure to the caller: it issues the plain fallback
updatePost(postId, status approved) — bypassing the transition path — and leaves the
page error and the posting banner untouched, so the failed cancellation is silently
swallowed.  This contradicts the claim, which says the failure is surfaced and that no
silent plain-status-update fallback exists. -/
theorem cancel_schedule_silent_fallback :
    (handleCancelSchedule cancelPage "p1" cancelFailEnv).2 =
      [ApiCall.cancelScheduledPost "p1",
       ApiCall.updatePost "p1" { status := some Status.approved }]
    ∧ (handleCancelSchedule cancelPage "p1" cancelFailEnv).1.error = none
    ∧ (handleCancelSchedule cancelPage "p1" cancelFailEnv).1.postingMessage = none :=
  ⟨rfl, rfl, rfl⟩

/-- C3: after the error path of handleCancelSchedule, the post stored in the page
state has status approved while its scheduled_time is still set, violating the
invariant that scheduled_time is non-null exactly when the status is scheduled; the
fallback update sends only the status field, so cancelling does not clear
scheduled_time on this path. -/
theorem cancel_fallback_violates_scheduled_time_invariant :
    ((handleCancelSchedule cancelPage "p1" cancelFailEnv).1.posts.map
        fun p => (p.status, p.scheduled_time)) = [(Status.approved, some 1000)]
    ∧ ∃ p ∈ (handleCancelSchedule cancelPage "p1" cancelFailEnv).1.posts,
        p.status ≠ Status.scheduled ∧ p.scheduled_time ≠ none := by
  refine ⟨rfl, ?_⟩
  decide

/-- C4: the Reconsider button of the rejected-status action row invokes the approve
operation (approvePost), not a rejected-to-draft transition: the only API call issued
is approve, while under the specified state machine the reconsider action is the one
that yields draft and approve from rejected is an InvalidTransition; on no path does
the post become draft. -/
theorem reconsider_button_invokes_approve_not_draft :
    (reconsiderClick rejPage pRej rejEnv).2 = [ApiCall.approvePost "p2"]
    ∧ transition limits0 0 pRej Action.approve =
        .error (TransitionError.InvalidTransition Status.rejected Status.approved)
    ∧ transition limits0 0 pRej Action.reconsider = .ok { pRej with status := Status.draft }
    ∧ ∀ p ∈ (reconsiderClick rejPage pRej rejEnv).1.posts, p.status ≠ Status.draft := by
  refine ⟨rfl, rfl, rfl, ?_⟩
  decide

/-- C2: if the latest version of the post handed to handlePostNow has a platform that
lower-cases to instagram and a null media url, the handler only opens the add-media
dialog: it issues no API call at all (in particular no publish request) and changes no
state other than mediaUrlPost, so the post and its status are untouched. -/
theorem post_now_instagram_requires_media (s : PageState) (postParam : Post)
    (env : PostNowEnv)
    (hplat : lowerAscii (latestPost s postParam).platform = "instagram")
    (hmedia : (latestPost s postParam).content_media_url = none) :
    handlePostNow s postParam env =
      ({ s with mediaUrlPost := some (latestPost s postParam) }, []) := by
  simp [handlePostNow, hplat, hmedia, strFalsy]

/-- Witness for C2 at a concrete approved instagram post without media. -/
theorem post_now_instagram_requires_media_witness :
    handlePostNow instaPage pInsta postNowEnv0 =
      ({ instaPage with mediaUrlPost := some (latestPost instaPage pInsta) }, []) :=
  post_now_instagram_requires_media instaPage pInsta postNowEnv0 (by decide) (by decide)

/-- C5: a schedule request whose scheduled_time is not strictly in the future is
rejected with InvalidSchedule and the post does not become scheduled; conversely,
every successful schedule transition records a strictly-future scheduled_time. -/
theorem schedule_rejects_non_future_time (limits : String → Nat) (now t : Nat)
    (p : Post) (hstat : p.status = Status.draft ∨ p.status = Status.approved)
    (hpast : t ≤ now) :
    transition limits now p (Action.schedule t) = .error TransitionError.InvalidSchedule
    ∧ ∀ q now2 t2, transition limits now2 p (Action.schedule t2) = .ok q →
        now2 < t2 ∧ q.status = Status.scheduled ∧ q.scheduled_time = some t2 := by
  constructor
  · rcases hstat with h | h <;> simp [transition, h, Nat.not_lt.mpr hpast]
  · intro q now2 t2 h
    cases hs : p.status <;> simp only [transition, hs] at h <;>
      try exact absurd h (by simp)
    all_goals
      by_cases hlt : now2 < t2
      · rw [if_pos hlt] at h
        cases h
        exact ⟨hlt, rfl, rfl⟩
      · rw [if_neg hlt] at h
        exact absurd h (by simp)

/-- Witness for C5: scheduling a draft post at instant 5 when the current instant is
10 yields InvalidSchedule. -/
theorem schedule_rejects_non_future_time_witness :
    transition limits0 10 basePost (Action.schedule 5) =
      .error TransitionError.InvalidSchedule :=
  (schedule_rejects_non_future_time limits0 10 5 basePost (Or.inl rfl) (by decide)).1

/-- C6: a post whose content_text is empty or longer than the platform limit is
reported by the Validation Engine with a content_text issue, and the post-now
publication path never invokes the gateway for it: from an eligible pre-post status
the attempt returns PreconditionFailed, and no mutated (in particular no truncated)
post is ever produced. -/
theorem post_now_validates_content_text (limits : String → Nat) (p : Post)
    (hbad : p.content_text = "" ∨ limits p.platform < p.content_text.length) :
    (∃ i ∈ validate limits p, i.field = "content_text")
    ∧ (∀ now gw, (postNowAttempt limits now p gw).2 = false)
    ∧ (∀ now gw, p.status = Status.approved ∨ p.status = Status.scheduled →
        postNowAttempt limits now p gw =
          (.error TransitionError.PreconditionFailed, false)) := by
  have hv : ∃ i ∈ validate limits p, i.field = "content_text" := by
    rcases hbad with h | h
    · refine ⟨{ field := "content_text", message := "content text must be non-empty" }, ?_, rfl⟩
      simp [validate, h]
    · refine ⟨{ field := "content_text", message := "content text exceeds the platform maximum length" }, ?_, rfl⟩
      simp [validate, h]
  have hne : validate limits p ≠ [] := by
    rcases hv with ⟨i, hi, _⟩
    exact List.ne_nil_of_mem hi
  obtain ⟨a, l, hl⟩ := List.exists_cons_of_ne_nil hne
  refine ⟨hv, ?_, ?_⟩
  · intro now gw
    by_cases hs : p.status = Status.approved ∨ p.status = Status.scheduled
    · simp [postNowAttempt, hs, hl]
    · simp [postNowAttempt, hs]
  · intro now gw hs
    simp [postNowAttempt, hs, hl]

/-- Witness for C6 at an approved post with empty content text. -/
theorem post_now_validates_content_text_witness :
    (∃ i ∈ validate limits0 pEmptyText, i.field = "content_text")
    ∧ (postNowAttempt limits0 0 pEmptyText (GatewayOutcome.success "x")).2 = false :=
  ⟨(post_now_validates_content_text limits0 pEmptyText (Or.inl rfl)).1,
   (post_now_validates_content_text limits0 pEmptyText (Or.inl rfl)).2.1 0
     (GatewayOutcome.success "x")⟩

/-- The post-now endpoint echoes the requested id in the post_id field of its result,
in every branch. -/
lemma postNowEndpoint_post_id (limits : String → Nat) (now : Nat) (posts : List Post)
    (postId : String) (gw : String → GatewayOutcome) :
    (postNowEndpoint limits now posts postId gw).2.post_id = postId := by
  simp only [postNowEndpoint]
  cases findPost posts postId with
  | none => rfl
  | some p =>
      rcases hpa : postNowAttempt limits now p (gw postId) with ⟨res, b⟩
      cases res <;> simp [hpa]

/-- A failing approve endpoint leaves the store unchanged. -/
lemma approveEndpoint_error_store (limits : String → Nat) (now : Nat)
    (posts : List Post) (postId : String) (e : TransitionError)
    (h : (approveEndpoint limits now posts postId).2 = .error e) :
    (approveEndpoint limits now posts postId).1 = posts := by
  cases hfp : findPost posts postId with
  | none => simp [approveEndpoint, hfp]
  | some p =>
      cases ht : transition limits now p Action.approve with
      | ok updated => simp [approveEndpoint, hfp, ht] at h
      | error e2 => simp [approveEndpoint, hfp, ht]

/-- C7 counterexample: on the batch [a1, b2] where a1 is a draft and b2 is already
posted, bulkApprove returns a single updated Post for a1 and no entry at all for the
failing id b2 — the result is not a per-id list of the shape id, success, error
(its declared element type Post carries no success or error field, and the failing id
has no entry), refuting the claim for bulkApprove. -/
theorem bulk_approve_lacks_per_id_results :
    ((bulkApprove limits0 0 bulkPosts0 ["a1", "b2"]).2.map Post.id) = ["a1"]
    ∧ (bulkApprove limits0 0 bulkPosts0 ["a1", "b2"]).2.length ≠
        (["a1", "b2"] : List String).length := by
  refine ⟨rfl, ?_⟩
  decide

/-- C7 amended: bulk operations apply the single-item operation independently per id:
bulkPost returns exactly one PostingResult per requested id, echoing the id, and a
failing id at the head of a bulkApprove batch neither prevents the remaining ids from
being processed nor changes their outcome (no all-or-nothing rollback); but
bulkApprove reports no per-id success or error entry — it returns only the updated
Post records. -/
theorem bulk_ops_per_id_independent :
    (∀ (limits : String → Nat) (now : Nat) (posts : List Post)
        (gw : String → GatewayOutcome) (ids : List String),
        ((bulkPost limits now posts gw ids).2.map PostingResult.post_id) = ids)
    ∧ (∀ (limits : String → Nat) (now : Nat) (posts : List Post) (b : String)
        (ids : List String) (e : TransitionError),
        (approveEndpoint limits now posts b).2 = .error e →
        bulkApprove limits now posts (b :: ids) = bulkApprove limits now posts ids) := by
  constructor
  · intro limits now posts gw ids
    induction ids generalizing posts with
    | nil => rfl
    | cons hd tl ih => simp [bulkPost, ih, postNowEndpoint_post_id]
  · intro limits now posts b ids e h
    have hstore := approveEndpoint_error_store limits now posts b e h
    rcases hh : approveEndpoint limits now posts b with ⟨st, r⟩
    rw [hh] at h hstore
    cases r with
    | ok updated => simp at h
    | error e2 =>
        simp only [Prod.fst] at hstore
        subst hstore
        simp [bulkApprove, hh]

/-- Witness for C7 amended: on the concrete store, bulkPost echoes both ids, and
putting the failing id b2 first does not change what happens to a1. -/
theorem bulk_ops_per_id_independent_witness :
    ((bulkPost limits0 0 bulkPosts0 (fun _ => GatewayOutcome.success "pid")
        ["a1", "b2"]).2.map PostingResult.post_id) = ["a1", "b2"]
    ∧ bulkApprove limits0 0 bulkPosts0 ["b2", "a1"] =
        bulkApprove limits0 0 bulkPosts0 ["a1"] :=
  ⟨bulk_ops_per_id_independent.1 limits0 0 bulkPosts0
      (fun _ => GatewayOutcome.success "pid") ["a1", "b2"],
   bulk_ops_per_id_independent.2 limits0 0 bulkPosts0 "b2" ["a1"]
      (TransitionError.InvalidTransition Status.posted Status.approved) (by rfl)⟩

/-- The dispatcher never touches a post that is not scheduled. -/
lemma transientTick_nonscheduled (cfg : RetryConfig) (msg : String)
    (p : DispatchedPost) (h : p.status ≠ Status.scheduled) :
    transientTick cfg msg p = p := by
  simp [transientTick, h]

/-- Any number of dispatcher ticks leaves a non-scheduled post unchanged. -/
lemma runTransient_nonscheduled (cfg : RetryConfig) (msg : String) (k : Nat)
    (p : DispatchedPost) (h : p.status ≠ Status.scheduled) :
    runTransient cfg msg k p = p := by
  induction k with
  | zero => rfl
  | succ k ih =>
      rw [runTransient, transientTick_nonscheduled cfg msg p h]
      exact ih

/-- A scheduled post that is m attempts away from the maximum, under always-transient
gateway failures, ends failed with attempt_count equal to the maximum after at least m
further ticks. -/
lemma runTransient_exhausts (cfg : RetryConfig) (msg : String) :
    ∀ m, 1 ≤ m → ∀ p : DispatchedPost, p.status = Status.scheduled →
      p.attempt_count + m = cfg.maxAttempts → ∀ k, m ≤ k →
      (runTransient cfg msg k p).status = Status.failed
      ∧ (runTransient cfg msg k p).attempt_count = cfg.maxAttempts := by
  intro m
  induction m with
  | zero => intro h; exact absurd h (by omega)
  | succ m ih =>
      intro _ p hs hcount k hk
      obtain ⟨k2, rfl⟩ : ∃ k2, k = k2 + 1 := ⟨k - 1, by omega⟩
      have hk2 : m ≤ k2 := by omega
      rcases Nat.eq_zero_or_pos m with hm | hm
      · subst hm
        have hattempt : p.attempt_count + 1 = cfg.maxAttempts := by omega
        have hle : cfg.maxAttempts ≤ p.attempt_count + 1 := Nat.le_of_eq hattempt.symm
        have htick : transientTick cfg msg p =
            { p with
                status := Status.failed, attempt_count := p.attempt_count + 1,
                last_error := some msg, scheduled_time := none } := by
          simp [transientTick, hs, applyGateway, shouldRetry, hle]
        rw [runTransient, htick,
          runTransient_nonscheduled cfg msg k2 _ (by simp)]
        exact ⟨rfl, hattempt⟩
      · have hlt : p.attempt_count + 1 < cfg.maxAttempts := by omega
        have htick : transientTick cfg msg p =
            { p with
                status := Status.scheduled, attempt_count := p.attempt_count + 1,
                last_error := some msg,
                scheduled_time :=
                  some (p.scheduled_time.getD 0 + backoff cfg (p.attempt_count + 1)) } := by
          simp [transientTick, hs, applyGateway, shouldRetry, Nat.not_le.mpr hlt]
        rw [runTransient, htick]
        exact ih hm _ rfl (by simp; omega) k2 hk2

/-- C8: a scheduled post with no prior attempts whose gateway calls always fail
transiently is retried until the configured maximum attempt count is reached and then
has status failed with attempt_count exactly the maximum; after exhaustion further
dispatcher ticks make no further attempt and leave the post unchanged. -/
theorem retry_exhaustion_reaches_failed (cfg : RetryConfig) (msg : String)
    (p : DispatchedPost) (k : Nat) (hs : p.status = Status.scheduled)
    (h0 : p.attempt_count = 0) (hmax : 1 ≤ cfg.maxAttempts)
    (hk : cfg.maxAttempts ≤ k) :
    (runTransient cfg msg k p).status = Status.failed
    ∧ (runTransient cfg msg k p).attempt_count = cfg.maxAttempts
    ∧ ∀ j, runTransient cfg msg j (runTransient cfg msg k p) =
        runTransient cfg msg k p := by
  have h := runTransient_exhausts cfg msg cfg.maxAttempts hmax p hs (by omega) k hk
  refine ⟨h.1, h.2, ?_⟩
  intro j
  refine runTransient_nonscheduled cfg msg j _ ?_
  rw [h.1]
  simp

/-- Witness for C8: with a maximum of three attempts, five always-transient ticks on a
fresh scheduled post end in failed with attempt_count three. -/
theorem retry_exhaustion_reaches_failed_witness :
    (runTransient cfg0 "timeout" 5 dp0).status = Status.failed
    ∧ (runTransient cfg0 "timeout" 5 dp0).attempt_count = cfg0.maxAttempts :=
  ⟨(retry_exhaustion_reaches_failed cfg0 "timeout" dp0 5 rfl rfl (by decide) (by decide)).1,
   (retry_exhaustion_reaches_failed cfg0 "timeout" dp0 5 rfl rfl (by decide) (by decide)).2.1⟩

/-- C9: any sequence of clicks on the Auto-Approval switch issues no API call and
leaves every piece of page state other than the local autoApproval boolean unchanged:
no post, filter, banner, modal or loading flag is read back differently or modified,
so the switch has no effect on any post lifecycle. -/
theorem auto_approval_toggle_is_local (s : PageState) (n : Nat) :
    (toggleSeq n s).2 = []
    ∧ (toggleSeq n s).1.posts = s.posts
    ∧ (toggleSeq n s).1.selectedStatus = s.selectedStatus
    ∧ (toggleSeq n s).1.loading = s.loading
    ∧ (toggleSeq n s).1.error = s.error
    ∧ (toggleSeq n s).1.schedulingPost = s.schedulingPost
    ∧ (toggleSeq n s).1.scheduleDate = s.scheduleDate
    ∧ (toggleSeq n s).1.scheduleTime = s.scheduleTime
    ∧ (toggleSeq n s).1.postingId = s.postingId
    ∧ (toggleSeq n s).1.postingMessage = s.postingMessage
    ∧ (toggleSeq n s).1.mediaUrlPost = s.mediaUrlPost
    ∧ (toggleSeq n s).1.mediaUrl = s.mediaUrl
    ∧ (toggleSeq n s).1.generatingImage = s.generatingImage
    ∧ (toggleSeq n s).1.isScheduling = s.isScheduling := by
  induction n generalizing s with
  | zero => simp [toggleSeq]
  | succ n ih =>
      simpa [toggleSeq, toggleAutoApproval] using
        ih { s with autoApproval := !s.autoApproval }

/-- C10: the approval rate is 0 on an empty post list; on a non-empty list it is the
half-up rounding of 100 times the approved-like count over the total (characterized
by the two division inequalities below); and it is always a defined natural number of
at most 100, because the division is guarded by the emptiness check. -/
theorem approval_rate_guarded_rounding (posts : List Post) :
    (posts = [] → approvalRate posts = 0)
    ∧ (posts ≠ [] →
        2 * posts.length * approvalRate posts
            ≤ 200 * approvedLikeCount posts + posts.length
        ∧ 200 * approvedLikeCount posts + posts.length
            < 2 * posts.length * approvalRate posts + 2 * posts.length)
    ∧ approvalRate posts ≤ 100 := by
  refine ⟨?_, ?_, ?_⟩
  · intro h
    subst h
    rfl
  · intro h
    have hn : 0 < posts.length := List.length_pos.mpr h
    have hq : approvalRate posts =
        (200 * approvedLikeCount posts + posts.length) / (2 * posts.length) := by
      simp [approvalRate, hn]
    have hdm := Nat.div_add_mod (200 * approvedLikeCount posts + posts.length)
      (2 * posts.length)
    have hmod : (200 * approvedLikeCount posts + posts.length) % (2 * posts.length)
        < 2 * posts.length := Nat.mod_lt _ (by omega)
    rw [hq]
    omega
  · by_cases hn : 0 < posts.length
    · have hk : approvedLikeCount posts ≤ posts.length := List.length_filter_le _ _
      have hq : approvalRate posts =
          (200 * approvedLikeCount posts + posts.length) / (2 * posts.length) := by
        simp [approvalRate, hn]
      have h2 : 200 * approvedLikeCount posts + posts.length ≤ 201 * posts.length := by
        omega
      have h3 : (201 * posts.length) / (2 * posts.length) ≤ 100 := by
        apply Nat.le_of_lt_succ
        rw [Nat.div_lt_iff_lt_mul (by omega : 0 < 2 * posts.length)]
        omega
      rw [hq]
      exact le_trans (Nat.div_le_div_right h2) h3
    · simp [approvalRate, hn]

/-- Witness for C10: the rate of the empty list is 0, and on three posts with two
approved-like the rounding inequalities hold concretely (the rate is 67). -/
theorem approval_rate_guarded_rounding_witness :
    approvalRate ([] : List Post) = 0
    ∧ (2 * postsC10.length * approvalRate postsC10
          ≤ 200 * approvedLikeCount postsC10 + postsC10.length
       ∧ 200 * approvedLikeCount postsC10 + postsC10.length
          < 2 * postsC10.length * approvalRate postsC10 + 2 * postsC10.length) :=
  ⟨(approval_rate_guarded_rounding []).1 rfl,
   (approval_rate_guarded_rounding postsC10).2.1 (by decide)⟩

end MarketingTool
